import Mathlib

/-!
Verification of the warehouse query server (`src/main.rs`).

The Rust program is an axum HTTP service over a PostgreSQL schema with three
tables (`Suppliers`, `Material_Catalog`, `Storage_Units`).  We embed the
schema as Lean structures, each SQL query as a pure function over a database
snapshot, and the error projection `AppError::into_response` as a function to
an HTTP status code paired with a message body.  Numeric SQL values
(`quantity`, `unit_price`, their sums and ratios) are modelled as rationals;
dates as integers (day numbers, `BETWEEN` is inclusive); `NULL` as `Option`.
-/

/-- Row of the `Suppliers` table: surrogate id, required legal name,
optional unique tax identifier, optional bank city. -/
structure Supplier where
  supplier_id : Int
  name : String
  tax_id : Option String
  bank_address_city : Option String
  deriving DecidableEq, Repr

/-- Row of the `Material_Catalog` table. -/
structure MaterialCatalogEntry where
  material_id : Int
  material_name : String
  class_code : Option String
  group_code : Option String
  deriving DecidableEq, Repr

/-- Row of the `Storage_Units` ledger table. -/
structure StorageUnit where
  material_id : Int
  supplier_id : Int
  order_number : Int
  date : Int
  quantity : ℚ
  unit_price : ℚ
  deriving DecidableEq, Repr

/-- A snapshot of the relational store the queries run against. -/
structure Db where
  suppliers : List Supplier
  material_catalog : List MaterialCatalogEntry
  storage_units : List StorageUnit
  deriving DecidableEq, Repr

/-- Parameters `PeriodParams` from `main.rs`: inclusive date range of a query. -/
structure PeriodParams where
  start : Int
  «end» : Int
  deriving DecidableEq, Repr

/-- Response payload of `get_supplier_name_by_tax` (`SupplierName` in `main.rs`). -/
structure SupplierName where
  name : String
  deriving DecidableEq, Repr

/-- Response payload of `get_suppliers_by_bank_city` (`SupplierBankInfo`). -/
structure SupplierBankInfo where
  name : String
  tax_id : Option String
  deriving DecidableEq, Repr

/-- Response payload of `get_suppliers_per_bank` (`BankSupplierCount`). -/
structure BankSupplierCount where
  bank_address_city : Option String
  supplier_count : Option Int
  deriving DecidableEq, Repr

/-- Response payload of `get_total_spent_by_period` (`TotalAmount`). -/
structure TotalAmount where
  total_amount : Option ℚ
  deriving DecidableEq, Repr

/-- Response payload of `get_current_inventory_value` (`InventoryValue`). -/
structure InventoryValue where
  material_name : String
  total_quantity : Option ℚ
  total_value : Option ℚ
  deriving DecidableEq, Repr

/-- Response payload of `get_supplier_share` (`SupplierShare`). -/
structure SupplierShare where
  supplier_share : Option ℚ
  deriving DecidableEq, Repr

/-- Response payload of `get_bank_info_by_order` (`OrderBankInfo`). -/
structure OrderBankInfo where
  bank_address_city : Option String
  total_amount : Option ℚ
  deriving DecidableEq, Repr

/-- The errors a handler can produce.  `rowNotFound` stands for
`sqlx::Error::RowNotFound`, `sqlxOther` for any other `sqlx::Error`, and
`anyhowMsg` for an `anyhow::anyhow!` message error (which does not downcast
to `sqlx::Error`). -/
inductive AppError where
  | rowNotFound : AppError
  | sqlxOther : String → AppError
  | anyhowMsg : String → AppError
  deriving DecidableEq, Repr

/-- The `impl IntoResponse for AppError` logic in `main.rs`: downcast to `sqlx::Error`;
`RowNotFound` becomes 404, any other sqlx error becomes 500 with a fixed
message, and a non-sqlx (anyhow) error becomes 500 carrying its own text. -/
def AppError.into_response : AppError → Nat × String
  | .rowNotFound => (404, "Resource not found")
  | .sqlxOther _ => (500, "Database error")
  | .anyhowMsg m => (500, m)

/-- Semantics of `fetch_optional` on the result rows of a query: the first
row if any, `none` otherwise. -/
def fetch_optional (rows : List α) : Option α :=
  rows.head?

/-- Semantics of `fetch_one` on the result rows of a query: the first row,
or the `RowNotFound` error when the query produced no row. -/
def fetch_one (rows : List α) : Except AppError α :=
  match rows with
  | [] => .error .rowNotFound
  | r :: _ => .ok r

/-- SQL `SUM` over a column of values: `NULL` over zero rows, the sum
otherwise. -/
def sqlSum (l : List ℚ) : Option ℚ :=
  match l with
  | [] => none
  | _ :: _ => some (l.foldr (· + ·) 0)

/-- SQL `COALESCE(x, d)`. -/
def coalesce (x : Option ℚ) (d : ℚ) : ℚ :=
  x.getD d

/-- SQL `NULLIF(x, v)`: `NULL` when `x` is `NULL` or equals `v`. -/
def nullif (x : Option ℚ) (v : ℚ) : Option ℚ :=
  match x with
  | none => none
  | some y => if y = v then none else some y

/-- SQL `a / b` where the divisor is nullable: `NULL` divisor gives `NULL`. -/
def sqlDivByNullable (a : ℚ) (b : Option ℚ) : Option ℚ :=
  match b with
  | none => none
  | some y => some (a / y)

/-- The inner join `Storage_Units SU JOIN Material_Catalog MC ON
SU.material_id = MC.material_id`, as the list of matched row pairs. -/
def joinSU_MC (db : Db) : List (StorageUnit × MaterialCatalogEntry) :=
  db.storage_units.flatMap fun su =>
    (db.material_catalog.filter fun mc => mc.material_id = su.material_id).map
      fun mc => (su, mc)

/-- The inner join `Storage_Units SU JOIN Suppliers S ON
SU.supplier_id = S.supplier_id`, as the list of matched row pairs. -/
def joinSU_S (db : Db) : List (StorageUnit × Supplier) :=
  db.storage_units.flatMap fun su =>
    (db.suppliers.filter fun s => s.supplier_id = su.supplier_id).map
      fun s => (su, s)

/-- Handler 1, `get_supplier_name_by_tax`:
`SELECT name FROM Suppliers WHERE tax_id = $1`, `fetch_optional`; on `None`
the handler builds the anyhow error `"Поставщик с ИНН {tax_id} не найден"`. -/
def get_supplier_name_by_tax (db : Db) (tax_id : String) :
    Except AppError SupplierName :=
  let rows := (db.suppliers.filter fun s => s.tax_id = some tax_id).map
    fun s => SupplierName.mk s.name
  match fetch_optional rows with
  | some supplier => .ok supplier
  | none => .error (.anyhowMsg ("Поставщик с ИНН " ++ tax_id ++ " не найден"))

/-- Handler 2, `get_suppliers_by_bank_city`:
`SELECT name, tax_id FROM Suppliers WHERE bank_address_city = $1`,
`fetch_all`, always `Ok`. -/
def get_suppliers_by_bank_city (db : Db) (city : String) :
    Except AppError (List SupplierBankInfo) :=
  .ok ((db.suppliers.filter fun s => s.bank_address_city = some city).map
    fun s => SupplierBankInfo.mk s.name s.tax_id)

/-- The distinct non-`NULL` bank cities appearing in `Suppliers` (the
`GROUP BY bank_address_city` keys after `WHERE bank_address_city IS NOT
NULL`). -/
def bankCities (db : Db) : List String :=
  (db.suppliers.filterMap fun s => s.bank_address_city).dedup

/-- `COUNT(supplier_id)` within one bank-city group. -/
def bankCount (db : Db) (c : String) : Nat :=
  (db.suppliers.filter fun s => s.bank_address_city = some c).length

/-- The `ORDER BY ... DESC` comparison on a nullable numeric sort key
(PostgreSQL sorts `NULL` first under `DESC`). -/
def optGe [LinearOrder α] : Option α → Option α → Prop
  | none, _ => True
  | some _, none => False
  | some x, some y => y ≤ x

instance [LinearOrder α] : DecidableRel (optGe (α := α)) := fun a b => by
  cases a <;> cases b <;> simp only [optGe] <;> infer_instance

theorem optGe_total [LinearOrder α] (a b : Option α) : optGe a b ∨ optGe b a := by
  cases a <;> cases b <;> simp [optGe, le_total]

theorem optGe_trans [LinearOrder α] {a b c : Option α}
    (hab : optGe a b) (hbc : optGe b c) : optGe a c := by
  cases a <;> cases b <;> cases c <;> simp_all [optGe]
  exact le_trans hbc hab

/-- Comparison `ORDER BY supplier_count DESC` on result rows of handler 3. -/
def countGe (a b : BankSupplierCount) : Prop :=
  optGe a.supplier_count b.supplier_count

instance : DecidableRel countGe := fun a b =>
  inferInstanceAs (Decidable (optGe a.supplier_count b.supplier_count))

instance : IsTotal BankSupplierCount countGe :=
  ⟨fun a b => optGe_total a.supplier_count b.supplier_count⟩

instance : IsTrans BankSupplierCount countGe :=
  ⟨fun _ _ _ hab hbc => optGe_trans hab hbc⟩

/-- The result rows of the handler-3 query:
`SELECT bank_address_city, COUNT(supplier_id) FROM Suppliers WHERE
bank_address_city IS NOT NULL GROUP BY bank_address_city ORDER BY
supplier_count DESC`. -/
def bankCountList (db : Db) : List BankSupplierCount :=
  List.insertionSort countGe
    ((bankCities db).map fun c =>
      BankSupplierCount.mk (some c) (some (bankCount db c)))

/-- Handler 3, `get_suppliers_per_bank`: the query above with `fetch_all`,
always `Ok`. -/
def get_suppliers_per_bank (db : Db) :
    Except AppError (List BankSupplierCount) :=
  .ok (bankCountList db)

/-- Handler 4, `get_materials_by_group`:
`SELECT material_name, class_code FROM Material_Catalog WHERE group_code =
$1`, `fetch_all`, always `Ok`. -/
def get_materials_by_group (db : Db) (group_code : String) :
    Except AppError (List (String × Option String)) :=
  .ok ((db.material_catalog.filter fun mc => mc.group_code = some group_code).map
    fun mc => (mc.material_name, mc.class_code))

/-- The `Storage_Units` rows with `date BETWEEN start AND end` (inclusive). -/
def matchingPeriodRows (db : Db) (params : PeriodParams) : List StorageUnit :=
  db.storage_units.filter fun su => params.start ≤ su.date ∧ su.date ≤ params.«end»

/-- Handler 5, `get_total_spent_by_period`:
`SELECT SUM(quantity * unit_price) FROM Storage_Units WHERE date BETWEEN $1
AND $2`, `fetch_one` — an ungrouped aggregate always yields exactly one row. -/
def get_total_spent_by_period (db : Db) (params : PeriodParams) :
    Except AppError TotalAmount :=
  fetch_one [TotalAmount.mk (sqlSum ((matchingPeriodRows db params).map
    fun su => su.quantity * su.unit_price))]

/-- Handler 6, `get_withdrawn_materials` (the stub): ignores its arguments
and always returns the anyhow error
`"Метод не реализован: отсутствует таблица расхода"`. -/
def get_withdrawn_materials (_db : Db) (_params : PeriodParams) :
    Except AppError (List String) :=
  .error (.anyhowMsg "Метод не реализован: отсутствует таблица расхода")

/-- The distinct values of `MC.material_name` occurring in the inner join of
`Storage_Units` with `Material_Catalog` — the `GROUP BY MC.material_name`
keys of handler 7. -/
def inventoryNames (db : Db) : List String :=
  ((joinSU_MC db).map fun p => p.2.material_name).dedup

/-- One `GROUP BY` group of handler 7: for a material name, the aggregates
`SUM(SU.quantity)` and `SUM(SU.quantity * SU.unit_price)` over the joined
rows carrying that name. -/
def inventoryEntry (db : Db) (nm : String) : InventoryValue :=
  let rs := (joinSU_MC db).filter fun p => p.2.material_name = nm
  InventoryValue.mk nm
    (sqlSum (rs.map fun p => p.1.quantity))
    (sqlSum (rs.map fun p => p.1.quantity * p.1.unit_price))

/-- Comparison `ORDER BY total_value DESC` on result rows of handler 7. -/
def invGe (a b : InventoryValue) : Prop :=
  optGe a.total_value b.total_value

instance : DecidableRel invGe := fun a b =>
  inferInstanceAs (Decidable (optGe a.total_value b.total_value))

instance : IsTotal InventoryValue invGe :=
  ⟨fun a b => optGe_total a.total_value b.total_value⟩

instance : IsTrans InventoryValue invGe :=
  ⟨fun _ _ _ hab hbc => optGe_trans hab hbc⟩

/-- The result rows of the handler-7 query:
`SELECT MC.material_name, SUM(SU.quantity), SUM(SU.quantity * SU.unit_price)
FROM Storage_Units SU JOIN Material_Catalog MC ON SU.material_id =
MC.material_id GROUP BY MC.material_name ORDER BY total_value DESC`. -/
def inventoryList (db : Db) : List InventoryValue :=
  List.insertionSort invGe ((inventoryNames db).map (inventoryEntry db))

/-- Handler 7, `get_current_inventory_value`: the query above with
`fetch_all`, always `Ok`. -/
def get_current_inventory_value (db : Db) :
    Except AppError (List InventoryValue) :=
  .ok (inventoryList db)

/-- The `GroupTotal` CTE of handler 8: joined rows restricted to
`MC.group_code = $2`. -/
def groupRows (db : Db) (group_code : String) :
    List (StorageUnit × MaterialCatalogEntry) :=
  (joinSU_MC db).filter fun p => p.2.group_code = some group_code

/-- Aggregate `SUM(SU.quantity * SU.unit_price)` of the `GroupTotal` CTE: the
single `total_group_value` cell (an ungrouped aggregate produces exactly one
row). -/
def total_group_value (db : Db) (group_code : String) : Option ℚ :=
  sqlSum ((groupRows db group_code).map fun p => p.1.quantity * p.1.unit_price)

/-- The rows of the `SupplierTotal` CTE of handler 8: joined rows restricted
to `SU.supplier_id = $1 AND MC.group_code = $2`. -/
def supplierGroupRows (db : Db) (supplier_id : Int) (group_code : String) :
    List (StorageUnit × MaterialCatalogEntry) :=
  (groupRows db group_code).filter fun p => p.1.supplier_id = supplier_id

/-- Aggregate `SUM(SU.quantity * SU.unit_price)` of the `SupplierTotal` CTE. -/
def total_supplier_value (db : Db) (supplier_id : Int) (group_code : String) :
    Option ℚ :=
  sqlSum ((supplierGroupRows db supplier_id group_code).map
    fun p => p.1.quantity * p.1.unit_price)

/-- The result rows of the handler-8 query: the cross join
`FROM GroupTotal GT, SupplierTotal ST` of the two one-row CTEs, projecting
`COALESCE(ST.total_supplier_value, 0.0) / NULLIF(GT.total_group_value, 0.0)`. -/
def supplierShareRows (db : Db) (supplier_id : Int) (group_code : String) :
    List SupplierShare :=
  [total_group_value db group_code].flatMap fun gt =>
    [total_supplier_value db supplier_id group_code].map fun st =>
      SupplierShare.mk
        (sqlDivByNullable (coalesce st 0) (nullif gt 0))

/-- Handler 8, `get_supplier_share`: the CTE query above with `fetch_one`. -/
def get_supplier_share (db : Db) (supplier_id : Int) (group_code : String) :
    Except AppError SupplierShare :=
  fetch_one (supplierShareRows db supplier_id group_code)

/-- Handler 10, `get_bank_info_by_order`:
`SELECT S.bank_address_city, (SU.quantity * SU.unit_price) FROM
Storage_Units SU JOIN Suppliers S ON SU.supplier_id = S.supplier_id WHERE
SU.order_number = $1`, `fetch_optional`; on `None` the handler builds the
anyhow error `"Ордер с номером {order_number} не найден"`. -/
def get_bank_info_by_order (db : Db) (order_number : Int) :
    Except AppError OrderBankInfo :=
  let rows := ((joinSU_S db).filter fun p => p.1.order_number = order_number).map
    fun p => OrderBankInfo.mk p.2.bank_address_city
      (some (p.1.quantity * p.1.unit_price))
  match fetch_optional rows with
  | some i => .ok i
  | none =>
      .error (.anyhowMsg ("Ордер с номером " ++ toString order_number ++ " не найден"))

/-- Modelled from the spec: the Supplier-Name Cache of §4.2.  The cached
variant of the two-variant source is not under `src/` (only the uncached
variant `src/main.rs` is), so the cache state is modelled from the spec's
words: a key→value store from tax identifier to supplier name. -/
structure CacheState where
  entries : List (String × String)
  deriving DecidableEq, Repr

/-- Modelled from the spec: cache lookup — the value stored under a key, if
any. -/
def cacheLookup (c : CacheState) (k : String) : Option String :=
  (c.entries.find? fun p => p.1 = k).map fun p => p.2

/-- Modelled from the spec: one cache-aside lookup (§4.2).  If the key is
present in the cache, return the cached name without touching the Query
Catalog; on a miss, execute the underlying `get_supplier_name_by_tax` query,
insert `(tax id → name)` on success before returning, and on absence return
the error without caching.  The `Nat` component counts the store round-trips
this call performed. -/
def cachedLookup (db : Db) (c : CacheState) (tax_id : String) :
    Except AppError SupplierName × CacheState × Nat :=
  match cacheLookup c tax_id with
  | some name => (.ok (SupplierName.mk name), c, 0)
  | none =>
      match get_supplier_name_by_tax db tax_id with
      | .ok s => (.ok s, CacheState.mk ((tax_id, s.name) :: c.entries), 1)
      | .error e => (.error e, c, 1)

/-! ### Concrete database snapshots used as witnesses -/

/-- The empty store. -/
def dbEmpty : Db := Db.mk [] [] []

/-- The concrete scenario of the spec, §8: one supplier `Acme` with tax id
`"111"` and bank city `"Riga"`, one material `Bolts` in group `"G1"`, one
storage row of order 500 with quantity 100 at unit price 5/2. -/
def dbAcme : Db :=
  Db.mk
    [Supplier.mk 1 "Acme" (some "111") (some "Riga")]
    [MaterialCatalogEntry.mk 10 "Bolts" none (some "G1")]
    [StorageUnit.mk 10 1 500 100 100 (5/2)]

/-- Two distinct materials (ids 10 and 11) sharing the name `"Bolts"`, each
with one storage row. -/
def dbDupNames : Db :=
  Db.mk []
    [MaterialCatalogEntry.mk 10 "Bolts" none none,
     MaterialCatalogEntry.mk 11 "Bolts" none none]
    [StorageUnit.mk 10 1 1 0 1 1, StorageUnit.mk 11 1 2 0 1 2]

/-! ### Claims -/

/-- C1: for a tax identifier absent from the cache, a lookup is a miss that
performs one store round-trip and, when the underlying query finds a
matching supplier name, inserts (tax id → name) into the cache; a second
lookup with the same identifier then returns the identical name with zero
store round-trips. -/
theorem cache_miss_populates_then_hits (db : Db) (c : CacheState)
    (tax_id n : String)
    (hmiss : cacheLookup c tax_id = none)
    (hfound : get_supplier_name_by_tax db tax_id = .ok (SupplierName.mk n)) :
    cachedLookup db c tax_id =
      (.ok (SupplierName.mk n), CacheState.mk ((tax_id, n) :: c.entries), 1) ∧
    cachedLookup db (CacheState.mk ((tax_id, n) :: c.entries)) tax_id =
      (.ok (SupplierName.mk n), CacheState.mk ((tax_id, n) :: c.entries), 0) := by
  constructor
  · simp [cachedLookup, hmiss, hfound]
  · have hhit : cacheLookup (CacheState.mk ((tax_id, n) :: c.entries)) tax_id
        = some n := by
      simp [cacheLookup, List.find?]
    simp [cachedLookup, hhit]

/-- Witness for C1 on the concrete scenario database. -/
theorem cache_miss_populates_then_hits_witness :
    cachedLookup dbAcme (CacheState.mk []) "111" =
      (.ok (SupplierName.mk "Acme"), CacheState.mk [("111", "Acme")], 1) ∧
    cachedLookup dbAcme (CacheState.mk [("111", "Acme")]) "111" =
      (.ok (SupplierName.mk "Acme"), CacheState.mk [("111", "Acme")], 0) :=
  cache_miss_populates_then_hits dbAcme (CacheState.mk []) "111" "Acme"
    rfl rfl

/-- C2 (code bug, evaluated at the failing input): with no supplier carrying
tax id `"111"`, the handler yields an anyhow message error, which
`into_response` maps to status 500 carrying the raw message — not the 404
not-found signal the spec requires (the `RowNotFound → 404` branch is never
reached, because the handler uses `fetch_optional` and builds an
`anyhow::anyhow!` error).  The spec-modelled cache is indeed left
unpopulated. -/
theorem supplier_not_found_maps_to_500 :
    get_supplier_name_by_tax dbEmpty "111" =
      .error (.anyhowMsg "Поставщик с ИНН 111 не найден") ∧
    AppError.into_response (.anyhowMsg "Поставщик с ИНН 111 не найден") =
      (500, "Поставщик с ИНН 111 не найден") ∧
    cachedLookup dbEmpty (CacheState.mk []) "111" =
      (.error (.anyhowMsg "Поставщик с ИНН 111 не найден"),
       CacheState.mk [], 1) :=
  ⟨rfl, rfl, rfl⟩

/-- C3 counterexample: at a concrete invocation the withdrawn-materials stub
produces status 500, not the distinct 501 the claim states. -/
theorem withdrawn_cex :
    get_withdrawn_materials dbEmpty (PeriodParams.mk 0 0) =
      .error (.anyhowMsg "Метод не реализован: отсутствует таблица расхода") ∧
    (AppError.into_response
      (.anyhowMsg "Метод не реализован: отсутствует таблица расхода")).1 = 500 ∧
    (500 : Nat) ≠ 501 :=
  ⟨rfl, rfl, by decide⟩

/-- C3 amended: every invocation of the withdrawn-materials stub yields one
fixed anyhow message error; the error projection maps it to status 500 —
the same status as a generic upstream (database) failure — so it is
distinguishable from an upstream failure only by its message body, never by
a distinct 501 status. -/
theorem withdrawn_always_500 (db : Db) (p : PeriodParams) :
    get_withdrawn_materials db p =
      .error (.anyhowMsg "Метод не реализован: отсутствует таблица расхода") ∧
    AppError.into_response
      (.anyhowMsg "Метод не реализован: отсутствует таблица расхода") =
      (500, "Метод не реализован: отсутствует таблица расхода") ∧
    (AppError.into_response
      (.anyhowMsg "Метод не реализован: отсутствует таблица расхода")).1 =
      (AppError.into_response (.sqlxOther "connection reset")).1 :=
  ⟨rfl, rfl, rfl⟩

/-- C10: both CTEs of the supplier-share query are whole-table aggregates
without `GROUP BY`, so their cross join always produces exactly one result
row; `fetch_one` therefore never hits `RowNotFound` and the handler is `Ok`
for every supplier id and group code, absence of data surfacing only as an
absent ratio inside the success payload. -/
theorem supplier_share_single_row (db : Db) (supplier_id : Int)
    (group_code : String) :
    (supplierShareRows db supplier_id group_code).length = 1 ∧
    get_supplier_share db supplier_id group_code =
      .ok (SupplierShare.mk (sqlDivByNullable
        (coalesce (total_supplier_value db supplier_id group_code) 0)
        (nullif (total_group_value db group_code) 0))) :=
  ⟨rfl, rfl⟩

/-- C4: if the group total is zero or absent, the supplier-share handler
returns success with an absent ratio (no division-by-zero failure is
possible: `NULLIF` turns the zero divisor into `NULL`); if the supplier has
no joined rows in the group while the group total is positive, the returned
ratio is exactly 0. -/
theorem supplier_share_edge_cases (db : Db) (supplier_id : Int)
    (group_code : String) :
    ((total_group_value db group_code = none ∨
        total_group_value db group_code = some 0) →
      get_supplier_share db supplier_id group_code =
        .ok (SupplierShare.mk none)) ∧
    (∀ q : ℚ, total_group_value db group_code = some q → 0 < q →
      supplierGroupRows db supplier_id group_code = [] →
      get_supplier_share db supplier_id group_code =
        .ok (SupplierShare.mk (some 0))) := by
  constructor
  · rintro (h | h) <;>
      simp [get_supplier_share, supplierShareRows, fetch_one, h, nullif,
        sqlDivByNullable]
  · intro q hq hpos hrows
    have hst : total_supplier_value db supplier_id group_code = none := by
      simp [total_supplier_value, hrows, sqlSum]
    simp [get_supplier_share, supplierShareRows, fetch_one, hq, hst, nullif,
      sqlDivByNullable, coalesce, ne_of_gt hpos]

/-- Witness for C4: an empty store gives an absent ratio; in the concrete
scenario database a supplier with no rows in group `"G1"` gets share 0 while
the group total 250 is positive. -/
theorem supplier_share_edge_cases_witness :
    get_supplier_share dbEmpty 1 "G1" = .ok (SupplierShare.mk none) ∧
    get_supplier_share dbAcme 2 "G1" = .ok (SupplierShare.mk (some 0)) := by
  constructor
  · exact (supplier_share_edge_cases dbEmpty 1 "G1").1 (Or.inl rfl)
  · refine (supplier_share_edge_cases dbAcme 2 "G1").2 250 ?_ (by norm_num) rfl
    show total_group_value dbAcme "G1" = some 250
    norm_num [total_group_value, groupRows, joinSU_MC, dbAcme, sqlSum]

/-- C5: the total-spend handler always succeeds (an ungrouped aggregate
yields exactly one row); the matching rows are exactly the storage rows with
date in the inclusive range; with zero matching rows the total is an
explicit absent value (not zero), otherwise it is the sum of
quantity×unit_price over them. -/
theorem total_spent_characterization (db : Db) (p : PeriodParams) :
    (∀ su : StorageUnit, su ∈ matchingPeriodRows db p ↔
        su ∈ db.storage_units ∧ p.start ≤ su.date ∧ su.date ≤ p.«end») ∧
    (matchingPeriodRows db p = [] →
      get_total_spent_by_period db p = .ok (TotalAmount.mk none)) ∧
    (matchingPeriodRows db p ≠ [] →
      get_total_spent_by_period db p = .ok (TotalAmount.mk (some
        (((matchingPeriodRows db p).map fun su =>
          su.quantity * su.unit_price).foldr (· + ·) 0)))) := by
  refine ⟨?_, ?_, ?_⟩
  · intro su
    simp [matchingPeriodRows, List.mem_filter, and_assoc]
  · intro h
    simp [get_total_spent_by_period, h, sqlSum, fetch_one]
  · intro h
    rcases hm : matchingPeriodRows db p with _ | ⟨r, rs⟩
    · exact absurd hm h
    · simp [get_total_spent_by_period, hm, sqlSum, fetch_one]

/-- Witness for C5 on the concrete scenario database: the period [200,300]
matches no row and yields an absent total; the period [50,150] matches the
single row and yields 250. -/
theorem total_spent_characterization_witness :
    get_total_spent_by_period dbAcme (PeriodParams.mk 200 300) =
      .ok (TotalAmount.mk none) ∧
    get_total_spent_by_period dbAcme (PeriodParams.mk 50 150) =
      .ok (TotalAmount.mk (some 250)) := by
  constructor
  · exact (total_spent_characterization dbAcme (PeriodParams.mk 200 300)).2.1
      (by decide)
  · have h := (total_spent_characterization dbAcme
      (PeriodParams.mk 50 150)).2.2 (by decide)
    refine h.trans ?_
    norm_num [matchingPeriodRows, dbAcme]

/-- C6 (code bug, evaluated at the failing input): for an order number with
no storage row the handler yields an anyhow message error, which
`into_response` maps to status 500 with the raw message — not the 404
not-found signal the spec requires; for the existing single-row order 500 of
the concrete scenario it does return the supplier's bank city and
quantity×unit_price = 250. -/
theorem bank_info_not_found_maps_to_500 :
    get_bank_info_by_order dbEmpty 7 =
      .error (.anyhowMsg "Ордер с номером 7 не найден") ∧
    AppError.into_response (.anyhowMsg "Ордер с номером 7 не найден") =
      (500, "Ордер с номером 7 не найден") ∧
    get_bank_info_by_order dbAcme 500 =
      .ok (OrderBankInfo.mk (some "Riga") (some 250)) := by
  refine ⟨rfl, rfl, ?_⟩
  have h : (100 : ℚ) * (5 / 2) = 250 := by norm_num
  simp [get_bank_info_by_order, joinSU_S, dbAcme, fetch_optional, h]

/-- C7 counterexample: the query groups by `MC.material_name`, not by
material id.  In `dbDupNames` two distinct materials (ids 10 and 11) share
the name `"Bolts"` and each has a storage row — so two materials have at
least one StorageUnit row — yet the operation returns a single entry, not
one entry per material. -/
theorem inventory_entry_per_material_cex :
    (dbDupNames.material_catalog.filter fun mc =>
      dbDupNames.storage_units.any fun su =>
        su.material_id = mc.material_id).length = 2 ∧
    get_current_inventory_value dbDupNames =
      .ok [InventoryValue.mk "Bolts" (some 2) (some 3)] := by
  constructor
  · rfl
  · have h1 : inventoryNames dbDupNames = ["Bolts"] := by
      norm_num [inventoryNames, joinSU_MC, dbDupNames, List.dedup]
    have h2 : inventoryEntry dbDupNames "Bolts" =
        InventoryValue.mk "Bolts" (some 2) (some 3) := by
      norm_num [inventoryEntry, joinSU_MC, dbDupNames, sqlSum]
    simp [get_current_inventory_value, inventoryList, h1, h2]

/-- C7 amended: the current-inventory-value operation returns one entry per
material NAME that has at least one joined StorageUnit row (the query groups
by `MC.material_name`; distinct materials sharing a name are merged): a name
appears among the entries exactly when some storage row joins a catalog row
carrying it, each entry carries its name group's total quantity and total
value, entry names are pairwise distinct, and the list is ordered by total
value descending. -/
theorem inventory_value_by_name (db : Db) :
    get_current_inventory_value db = .ok (inventoryList db) ∧
    (∀ nm : String, (∃ e ∈ inventoryList db, e.material_name = nm) ↔
      ∃ p ∈ joinSU_MC db, p.2.material_name = nm) ∧
    (∀ e ∈ inventoryList db, e = inventoryEntry db e.material_name) ∧
    ((inventoryList db).map InventoryValue.material_name).Nodup ∧
    List.Sorted invGe (inventoryList db) := by
  have hperm : (inventoryList db).Perm
      ((inventoryNames db).map (inventoryEntry db)) :=
    List.perm_insertionSort _ _
  refine ⟨rfl, ?_, ?_, ?_, List.sorted_insertionSort _ _⟩
  · intro nm
    constructor
    · rintro ⟨e, he, hnm⟩
      obtain ⟨m, hm, rfl⟩ := List.mem_map.mp (hperm.mem_iff.mp he)
      have hm' : m ∈ (joinSU_MC db).map fun p => p.2.material_name :=
        List.mem_dedup.mp hm
      obtain ⟨p, hp, hp2⟩ := List.mem_map.mp hm'
      exact ⟨p, hp, hp2.trans hnm⟩
    · rintro ⟨p, hp, hnm⟩
      refine ⟨inventoryEntry db nm, ?_, rfl⟩
      refine hperm.mem_iff.mpr (List.mem_map.mpr ⟨nm, ?_, rfl⟩)
      exact List.mem_dedup.mpr (List.mem_map.mpr ⟨p, hp, hnm⟩)
  · intro e he
    obtain ⟨m, _, rfl⟩ := List.mem_map.mp (hperm.mem_iff.mp he)
    rfl
  · have hcomp : (InventoryValue.material_name ∘ inventoryEntry db) = id :=
      funext fun _ => rfl
    have h3 : ((inventoryNames db).map (inventoryEntry db)).map
        InventoryValue.material_name = inventoryNames db := by
      rw [List.map_map, hcomp, List.map_id]
    have hmapperm : ((inventoryList db).map InventoryValue.material_name).Perm
        (inventoryNames db) := by
      rw [← h3]
      exact hperm.map _
    exact hmapperm.nodup_iff.mpr (List.nodup_dedup _)

/-- Witness for C7 on the concrete scenario database: the name `"Bolts"`
appears among the entries (its material has a storage row), and the result
list is sorted by descending total value. -/
theorem inventory_value_by_name_witness :
    (∃ e ∈ inventoryList dbAcme, e.material_name = "Bolts") ∧
    List.Sorted invGe (inventoryList dbAcme) := by
  have h := inventory_value_by_name dbAcme
  refine ⟨(h.2.1 "Bolts").mpr ?_, h.2.2.2.2⟩
  refine ⟨(StorageUnit.mk 10 1 500 100 100 (5/2),
    MaterialCatalogEntry.mk 10 "Bolts" none (some "G1")), ?_, rfl⟩
  have hj : joinSU_MC dbAcme =
      [(StorageUnit.mk 10 1 500 100 100 (5/2),
        MaterialCatalogEntry.mk 10 "Bolts" none (some "G1"))] := rfl
  rw [hj]
  exact List.mem_singleton_self _

/-- C8: for every city string the suppliers-by-bank-city handler returns a
success outcome whose list holds exactly the (name, tax id or absent) pairs
of the suppliers whose bank city equals the given city; when no supplier
matches, the result is a success with the empty list, never a not-found
error. -/
theorem suppliers_by_bank_city_success (db : Db) (city : String) :
    get_suppliers_by_bank_city db city =
      .ok ((db.suppliers.filter fun s => s.bank_address_city = some city).map
        fun s => SupplierBankInfo.mk s.name s.tax_id) ∧
    (∀ p : SupplierBankInfo,
      (p ∈ (db.suppliers.filter fun s => s.bank_address_city = some city).map
          fun s => SupplierBankInfo.mk s.name s.tax_id) ↔
      ∃ s ∈ db.suppliers, s.bank_address_city = some city ∧
        p = SupplierBankInfo.mk s.name s.tax_id) ∧
    ((∀ s ∈ db.suppliers, s.bank_address_city ≠ some city) →
      get_suppliers_by_bank_city db city = .ok []) := by
  refine ⟨rfl, ?_, ?_⟩
  · intro p
    constructor
    · intro hp
      obtain ⟨s, hs, rfl⟩ := List.mem_map.mp hp
      obtain ⟨hs', hcity⟩ := List.mem_filter.mp hs
      exact ⟨s, hs', by simpa using hcity, rfl⟩
    · rintro ⟨s, hs, hcity, rfl⟩
      exact List.mem_map.mpr ⟨s, List.mem_filter.mpr ⟨hs, by simpa using hcity⟩, rfl⟩
  · intro h
    have hnil : (db.suppliers.filter fun s => s.bank_address_city = some city)
        = [] := by
      rw [List.filter_eq_nil_iff]
      intro a ha
      simpa using h a ha
    simp [get_suppliers_by_bank_city, hnil]

/-- Witness for C8: no supplier of the concrete scenario database banks in
Paris, and the handler returns success with the empty list. -/
theorem suppliers_by_bank_city_success_witness :
    get_suppliers_by_bank_city dbAcme "Paris" = .ok [] :=
  (suppliers_by_bank_city_success dbAcme "Paris").2.2 (by decide)

/-- C9: every entry of the supplier-count-per-bank-city result carries a
non-absent city that some supplier actually has, together with the count of
suppliers banking in that city (which is positive), and the list is ordered
by count descending. -/
theorem suppliers_per_bank_characterization (db : Db) :
    get_suppliers_per_bank db = .ok (bankCountList db) ∧
    (∀ e ∈ bankCountList db, ∃ c : String,
      e.bank_address_city = some c ∧
      (∃ s ∈ db.suppliers, s.bank_address_city = some c) ∧
      e.supplier_count = some (bankCount db c) ∧
      0 < bankCount db c) ∧
    List.Sorted countGe (bankCountList db) := by
  have hperm : (bankCountList db).Perm ((bankCities db).map fun c =>
      BankSupplierCount.mk (some c) (some (bankCount db c))) :=
    List.perm_insertionSort _ _
  refine ⟨rfl, ?_, List.sorted_insertionSort _ _⟩
  intro e he
  obtain ⟨c, hc, rfl⟩ := List.mem_map.mp (hperm.mem_iff.mp he)
  have hc' : c ∈ db.suppliers.filterMap fun s => s.bank_address_city :=
    List.mem_dedup.mp hc
  obtain ⟨s, hs, hsc⟩ := List.mem_filterMap.mp hc'
  have hsf : s ∈ db.suppliers.filter fun s' => s'.bank_address_city = some c :=
    List.mem_filter.mpr ⟨hs, by simpa using hsc⟩
  refine ⟨c, rfl, ⟨s, hs, hsc⟩, rfl, ?_⟩
  exact List.length_pos.mpr (List.ne_nil_of_mem hsf)

/-- Witness for C9 on the concrete scenario database: the single entry is
(Riga, 1), the list is sorted by count descending, and the characterization
applies to that entry. -/
theorem suppliers_per_bank_characterization_witness :
    bankCountList dbAcme = [BankSupplierCount.mk (some "Riga") (some 1)] ∧
    List.Sorted countGe (bankCountList dbAcme) ∧
    (∃ c : String,
      (BankSupplierCount.mk (some "Riga") (some 1)).bank_address_city = some c ∧
      (∃ s ∈ dbAcme.suppliers, s.bank_address_city = some c) ∧
      (BankSupplierCount.mk (some "Riga") (some 1)).supplier_count =
        some (bankCount dbAcme c) ∧
      0 < bankCount dbAcme c) := by
  have h := suppliers_per_bank_characterization dbAcme
  have heval : bankCountList dbAcme =
      [BankSupplierCount.mk (some "Riga") (some 1)] := by decide
  refine ⟨heval, h.2.2, h.2.1 _ ?_⟩
  rw [heval]
  exact List.mem_singleton_self _
